import Mathlib

/-!
Shallow embedding of the spimonkey SPI session library
(`src/spi_monkey.c`, `src/spm_error.c`, headers `spi_monkey.h`,
`spm_error.h`, `spm_sys.h`).

Modelling conventions:
* Machine integers become `Nat` (the C fields are unsigned); conversions
  that can truncate are written with an explicit `% 2^w`.
* Pointers to buffers become `Nat` addresses, with `0` playing the role
  of `NULL` (mirroring the `(uintptr_t)` casts in the C code).
* The injected syscall table's `ioctl_` is modelled per request kind as
  an `IoBeh`: the return code it produces, the `errno` value it sets
  when it fails (`rc < 0`), and the value it writes through the
  argument pointer when it does not fail.  `errno` is threaded
  explicitly through every function, as is the list of ioctl requests
  issued (the trace), so that theorems can count dispatch calls.
* Uninitialized C locals whose contents can be observed are modelled by
  explicit `junk` parameters (see `Junk`); the embedding never invents
  a concrete value for indeterminate memory.
* `calloc`/`alloca` are modelled as always succeeding; the device's
  `path` string and the `err` diagnostic record are not modelled (no
  claim observes them beyond the returned error code).
-/

/-- SPI mode bits from `linux/spi/spidev.h`: `SPI_CPHA 0x01`. -/
def SPI_CPHA : Nat := 0x01

/-- SPI mode bits from `linux/spi/spidev.h`: `SPI_CPOL 0x02`. -/
def SPI_CPOL : Nat := 0x02

/-- SPI mode bits from `linux/spi/spidev.h`: `SPI_CS_HIGH 0x04`. -/
def SPI_CS_HIGH : Nat := 0x04

/-- SPI mode bits from `linux/spi/spidev.h`: `SPI_LSB_FIRST 0x08`. -/
def SPI_LSB_FIRST : Nat := 0x08

/-- `UINT32_MAX`. -/
def UINT32_MAX : Nat := 4294967295

/-- `#define SPM_MIN_BPW_VALUE 8` (spi_monkey.c). -/
def SPM_MIN_BPW_VALUE : Nat := 8

/-- `#define SPM_MAX_BPW_VALUE 32` (spi_monkey.c). -/
def SPM_MAX_BPW_VALUE : Nat := 32

/-- `#define SPM_MAX_BATCH_XFERS 256` (spi_monkey.h). -/
def SPM_MAX_BATCH_XFERS : Nat := 256

/-- `#define SPM_DEFAULT_SPEED_HZ 5000000u` (spi_monkey.h). -/
def SPM_DEFAULT_SPEED_HZ : Nat := 5000000

/-- The `spm_ecode_t` result enumeration (spm_error.h).  Constructor
names follow the C names with the `SPM_` dropped and lowercased
(`eioFault` is `SPM_EIO`). -/
inductive SpmEcode where
  | ok
  | eparam
  | enotsup
  | enodev
  | ebus
  | etimeout
  | eioFault
  | estate
  | econfig
  | enomem
  | ecrc
  | eagain
  deriving Repr, DecidableEq

/-- `spm_map_errno` (spm_error.c): classify the current `errno`.
The numeric cases are the Linux errno values of the named constants:
EINVAL 22, ENOTDIR 20, EISDIR 21, ENOSYS 38, ENOTTY 25, EOPNOTSUPP 95,
ENODEV 19, ENXIO 6, ETIMEDOUT 110, EAGAIN 11, EINTR 4, EBUSY 16,
EIO 5, EFAULT 14, ENOMEM 12, EACCES 13, EPERM 1, EBADF 9, EPROTO 71. -/
def spm_map_errno (e : Nat) : SpmEcode :=
  match e with
  | 0   => SpmEcode.ok
  | 22  => SpmEcode.econfig    -- EINVAL
  | 20  => SpmEcode.econfig    -- ENOTDIR
  | 21  => SpmEcode.econfig    -- EISDIR
  | 38  => SpmEcode.enotsup    -- ENOSYS
  | 25  => SpmEcode.enotsup    -- ENOTTY
  | 95  => SpmEcode.enotsup    -- EOPNOTSUPP
  | 19  => SpmEcode.enodev     -- ENODEV
  | 6   => SpmEcode.enodev     -- ENXIO
  | 110 => SpmEcode.etimeout   -- ETIMEDOUT
  | 11  => SpmEcode.eagain     -- EAGAIN
  | 4   => SpmEcode.eagain     -- EINTR
  | 16  => SpmEcode.eagain     -- EBUSY
  | 5   => SpmEcode.eioFault   -- EIO
  | 14  => SpmEcode.eioFault   -- EFAULT
  | 12  => SpmEcode.enomem     -- ENOMEM
  | 13  => SpmEcode.estate     -- EACCES
  | 1   => SpmEcode.estate     -- EPERM
  | 9   => SpmEcode.estate     -- EBADF
  | 71  => SpmEcode.ebus       -- EPROTO
  | _   => SpmEcode.ebus       -- default

/-- `spm_cfg_t` (spi_monkey.h).  `mode` is the `spm_mode_t` enum value
(SPM_MODE0..3 are 0..3, but as a C enum the field can carry any value
until sanitized); `speed_hz` is `uint32_t`, `bits_per_word` is
`uint8_t`, `delay_usecs` is `uint16_t`, the flags are C `bool`. -/
structure SpmCfg where
  mode           : Nat
  speed_hz       : Nat
  bits_per_word  : Nat
  lsb_first      : Bool
  cs_active_high : Bool
  delay_usecs    : Nat
  cs_change      : Bool
  deriving Repr, DecidableEq

/-- `get_default_cfg` (spi_monkey.c lines 68-79). -/
def get_default_cfg : SpmCfg :=
  { mode := 0            -- SPM_MODE0
    speed_hz := 1000000
    bits_per_word := 8
    lsb_first := false
    cs_active_high := false
    delay_usecs := 0
    cs_change := false }

/-- `sanitize_cfg` (spi_monkey.c lines 81-90).  The three `!!flag`
normalizations are the identity here because the fields are `Bool`
(as they are `bool` in the C struct). -/
def sanitize_cfg (cfg : SpmCfg) : SpmCfg :=
  let cfg := if cfg.mode > 3 then { cfg with mode := 0 } else cfg
  let cfg := if cfg.bits_per_word < SPM_MIN_BPW_VALUE then
               { cfg with bits_per_word := SPM_MIN_BPW_VALUE } else cfg
  let cfg := if cfg.bits_per_word > SPM_MAX_BPW_VALUE then
               { cfg with bits_per_word := SPM_MAX_BPW_VALUE } else cfg
  let cfg := if cfg.speed_hz = 0 then { cfg with speed_hz := SPM_DEFAULT_SPEED_HZ } else cfg
  cfg

/-- `mode_to_mask` (spi_monkey.c lines 92-96): lookup table
`{0, SPI_CPHA, SPI_CPOL, SPI_CPOL | SPI_CPHA}` guarded by `mode <= SPM_MODE3`. -/
def mode_to_mask (mode : Nat) : Nat :=
  let lut : List Nat := [0, SPI_CPHA, SPI_CPOL, SPI_CPOL ||| SPI_CPHA]
  if mode ≤ 3 then lut.getD mode 0 else 0

/-- `mask_to_mode` (spi_monkey.c lines 98-105). -/
def mask_to_mode (mask : Nat) : Nat :=
  let lut : List Nat := [0, 1, 2, 3]  -- SPM_MODE0..SPM_MODE3
  let cpha : Nat := if mask &&& SPI_CPHA ≠ 0 then 1 else 0
  let cpol : Nat := if mask &&& SPI_CPOL ≠ 0 then 2 else 0
  let idx := cpol ||| cpha
  lut.getD idx 0

/-- `cfg_to_mode_mask` (spi_monkey.c lines 107-112). -/
def cfg_to_mode_mask (cfg : SpmCfg) : Nat :=
  mode_to_mask cfg.mode
    ||| (if cfg.cs_active_high then SPI_CS_HIGH else 0)
    ||| (if cfg.lsb_first then SPI_LSB_FIRST else 0)

/-- `clamp_bpw` (spi_monkey.c lines 128-132). -/
def clamp_bpw (bpw : Nat) : Nat :=
  let bpw := if bpw < SPM_MIN_BPW_VALUE then SPM_MIN_BPW_VALUE else bpw
  let bpw := if bpw > SPM_MAX_BPW_VALUE then SPM_MAX_BPW_VALUE else bpw
  bpw

/-- `struct spi_ioc_transfer` (the wire descriptor handed to the driver):
`tx_buf`/`rx_buf` are `uintptr_t` addresses (0 = NULL), `len` and
`speed_hz` are 32-bit, `bits_per_word` 8-bit, `delay_usecs` 16-bit,
`cs_change` an 8-bit 0/1. -/
structure SpiIocTransfer where
  tx_buf        : Nat
  rx_buf        : Nat
  len           : Nat
  speed_hz      : Nat
  bits_per_word : Nat
  delay_usecs   : Nat
  cs_change     : Nat
  deriving Repr, DecidableEq

/-- One ioctl request as seen on the wire, recorded in the trace.
The write requests carry the value passed through the argument
pointer; `message trs` is `SPI_IOC_MESSAGE(trs.length)` carrying the
built transfer array. -/
inductive IoCall where
  | rdMode32
  | rdMode8
  | rdBpw
  | rdSpeed
  | wrMode32 (v : Nat)
  | wrMode8 (v : Nat)
  | wrSpeed (v : Nat)
  | wrBpw (v : Nat)
  | message (trs : List SpiIocTransfer)
  deriving Repr, DecidableEq

/-- Behavior of the injected table's `ioctl_` for one request kind:
the return code `rc` it yields, the `errno` value `eno` it sets when it
fails (`rc < 0`; per the POSIX convention a call that does not fail
leaves `errno` untouched and a failing call overwrites it), and the
value `val` it writes through the argument pointer when it does not
fail (meaningful for the read requests only). -/
structure IoBeh where
  rc  : Int
  eno : Nat
  val : Nat
  deriving Repr, DecidableEq

/-- The injected `ioctl_` entry of an `spm_sys_ops_t` table, one
behavior per request kind the library issues.  Behaviors are per
request kind: the same request always behaves the same way within one
modelled call, which suffices for every claim considered here. -/
structure Sys where
  rdMode32 : IoBeh
  rdMode8  : IoBeh
  rdBpw    : IoBeh
  rdSpeed  : IoBeh
  wrMode32 : IoBeh
  wrMode8  : IoBeh
  wrSpeed  : IoBeh
  wrBpw    : IoBeh
  message  : IoBeh
  deriving Repr, DecidableEq

/-- The indeterminate contents of the uninitialized C locals that the
modelled code declares: `mode8` in `ioctl_read_mode`, the `mode_mask`,
`bpw`, `hz` locals of `read_device_config`, and the whole `actual_cfg`
struct of `write_device_config`. -/
structure Junk where
  mode8 : Nat
  m     : Nat
  b     : Nat
  h     : Nat
  ac    : SpmCfg
  deriving Repr, DecidableEq

/-- A fully concrete junk value, used only to instantiate witnesses. -/
def junk0 : Junk :=
  { mode8 := 0, m := 0, b := 0, h := 0, ac := get_default_cfg }

/-- Outcome of one raw ioctl call: `(rc, errno afterwards, pointee
afterwards, trace)`.  `prev` is the pointee's value before the call;
it survives when the call fails.  `width` is the pointee's bit width
(the table can only write through the C type of the argument). -/
def rawIoctl (b : IoBeh) (e : Nat) (prev : Nat) (width : Nat) (c : IoCall) :
    Int × Nat × Nat × List IoCall :=
  (b.rc, if b.rc < 0 then b.eno else e,
   if b.rc < 0 then prev else b.val % 2 ^ width, [c])

/-- `ioctl_read_bpw` (spi_monkey.c lines 118-121): `SPI_IOC_RD_BITS_PER_WORD`
through a `uint8_t` pointee. -/
def ioctl_read_bpw (sys : Sys) (e : Nat) (bpw0 : Nat) : Int × Nat × Nat × List IoCall :=
  rawIoctl sys.rdBpw e bpw0 8 IoCall.rdBpw

/-- `ioctl_write_bpw` (spi_monkey.c lines 123-126). -/
def ioctl_write_bpw (sys : Sys) (e : Nat) (bpw : Nat) : Int × Nat × List IoCall :=
  let r := rawIoctl sys.wrBpw e 0 8 (IoCall.wrBpw bpw)
  (r.1, r.2.1, r.2.2.2)

/-- `ioctl_read_speed` (spi_monkey.c lines 134-137): `uint32_t` pointee. -/
def ioctl_read_speed (sys : Sys) (e : Nat) (hz0 : Nat) : Int × Nat × Nat × List IoCall :=
  rawIoctl sys.rdSpeed e hz0 32 IoCall.rdSpeed

/-- `ioctl_write_speed` (spi_monkey.c lines 139-142). -/
def ioctl_write_speed (sys : Sys) (e : Nat) (hz : Nat) : Int × Nat × List IoCall :=
  let r := rawIoctl sys.wrSpeed e 0 32 (IoCall.wrSpeed hz)
  (r.1, r.2.1, r.2.2.2)

/-- `ioctl_read_mode32` (spi_monkey.c lines 144-147): `uint32_t` pointee. -/
def ioctl_read_mode32 (sys : Sys) (e : Nat) (mode0 : Nat) : Int × Nat × Nat × List IoCall :=
  rawIoctl sys.rdMode32 e mode0 32 IoCall.rdMode32

/-- `ioctl_read_mode8` (spi_monkey.c lines 149-152): `uint8_t` pointee. -/
def ioctl_read_mode8 (sys : Sys) (e : Nat) (m0 : Nat) : Int × Nat × Nat × List IoCall :=
  rawIoctl sys.rdMode8 e m0 8 IoCall.rdMode8

/-- `ioctl_write_mode32` (spi_monkey.c lines 154-157). -/
def ioctl_write_mode32 (sys : Sys) (e : Nat) (mode : Nat) : Int × Nat × List IoCall :=
  let r := rawIoctl sys.wrMode32 e 0 32 (IoCall.wrMode32 mode)
  (r.1, r.2.1, r.2.2.2)

/-- `ioctl_write_mode8` (spi_monkey.c lines 159-162). -/
def ioctl_write_mode8 (sys : Sys) (e : Nat) (mode : Nat) : Int × Nat × List IoCall :=
  let r := rawIoctl sys.wrMode8 e 0 8 (IoCall.wrMode8 mode)
  (r.1, r.2.1, r.2.2.2)

/-- `ioctl_read_mode` (spi_monkey.c lines 168-179): try the 32-bit read;
on any nonzero return fall back to the 8-bit legacy read.  `mode0` is
the pointee's value before the call, `j8` the indeterminate initial
value of the local `mode8`. -/
def ioctl_read_mode (sys : Sys) (e : Nat) (mode0 j8 : Nat) : Int × Nat × Nat × List IoCall :=
  let r32 := ioctl_read_mode32 sys e mode0
  if r32.1 = 0 then r32
  else
    let r8 := ioctl_read_mode8 sys r32.2.1 j8
    if r8.1 < 0 then (r8.1, r8.2.1, r32.2.2.1, r32.2.2.2 ++ r8.2.2.2)
    else (0, r8.2.1, r8.2.2.1, r32.2.2.2 ++ r8.2.2.2)

/-- `ioctl_write_mode` (spi_monkey.c lines 181-188): try the 32-bit
write; on any nonzero return retry through the 8-bit legacy write with
the mode truncated to a byte, returning whatever the 8-bit call
returns. -/
def ioctl_write_mode (sys : Sys) (e : Nat) (mode : Nat) : Int × Nat × List IoCall :=
  let r32 := ioctl_write_mode32 sys e mode
  if r32.1 = 0 then r32
  else
    let r8 := ioctl_write_mode8 sys r32.2.1 (mode % 256)
    (r8.1, r8.2.1, r32.2.2 ++ r8.2.2)

/-- `ioctl_read_config` (spi_monkey.c lines 190-197): read mode mask,
word size and speed, aborting with -1 on the first failing read, and
clamp the word size only after all three reads succeeded.  Result is
`(rc, errno, mode_mask, bpw, hz, trace)`; `mode0`/`bpw0`/`hz0` are the
pointees' values before the call and `j8` the junk for
`ioctl_read_mode`'s local. -/
def ioctl_read_config (sys : Sys) (e : Nat) (mode0 bpw0 hz0 j8 : Nat) :
    Int × Nat × Nat × Nat × Nat × List IoCall :=
  let rm := ioctl_read_mode sys e mode0 j8
  if rm.1 < 0 then (-1, rm.2.1, rm.2.2.1, bpw0, hz0, rm.2.2.2)
  else
    let rb := ioctl_read_bpw sys rm.2.1 bpw0
    if rb.1 < 0 then (-1, rb.2.1, rm.2.2.1, rb.2.2.1, hz0, rm.2.2.2 ++ rb.2.2.2)
    else
      let rh := ioctl_read_speed sys rb.2.1 hz0
      if rh.1 < 0 then
        (-1, rh.2.1, rm.2.2.1, rb.2.2.1, rh.2.2.1, rm.2.2.2 ++ rb.2.2.2 ++ rh.2.2.2)
      else
        (0, rh.2.1, rm.2.2.1, clamp_bpw rb.2.2.1, rh.2.2.1,
         rm.2.2.2 ++ rb.2.2.2 ++ rh.2.2.2)

/-- `ioctl_write_config` (spi_monkey.c lines 199-211): write the mode
mask, then the speed, then the word size, aborting with -1 on the
first failing write. -/
def ioctl_write_config (sys : Sys) (e : Nat) (cfg : SpmCfg) : Int × Nat × List IoCall :=
  let wm := ioctl_write_mode sys e (cfg_to_mode_mask cfg)
  if wm.1 < 0 then (-1, wm.2.1, wm.2.2)
  else
    let ws := ioctl_write_speed sys wm.2.1 cfg.speed_hz
    if ws.1 < 0 then (-1, ws.2.1, wm.2.2 ++ ws.2.2)
    else
      let wb := ioctl_write_bpw sys ws.2.1 cfg.bits_per_word
      if wb.1 < 0 then (-1, wb.2.1, wm.2.2 ++ ws.2.2 ++ wb.2.2)
      else (0, wb.2.1, wm.2.2 ++ ws.2.2 ++ wb.2.2)

/-- `fill_config` (spi_monkey.c lines 253-260): decode the mode mask
and store the read-back word size and speed.  Writes only five of the
seven fields: `delay_usecs` and `cs_change` of the target are left as
they were. -/
def fill_config (cfg : SpmCfg) (mode_mask bpw hz : Nat) : SpmCfg :=
  { cfg with
    mode           := mask_to_mode mode_mask
    cs_active_high := mode_mask &&& SPI_CS_HIGH ≠ 0
    lsb_first      := mode_mask &&& SPI_LSB_FIRST ≠ 0
    bits_per_word  := bpw
    speed_hz       := hz }

/-- `read_device_config` (spi_monkey.c lines 262-272): on a failing
read classify `errno`; on success fill the caller's config.  `cfg` is
the target's contents before the call (for the device-level callers
that is either `dev->cfg` or the uninitialized `actual_cfg`). -/
def read_device_config (sys : Sys) (e : Nat) (cfg : SpmCfg) (jk : Junk) :
    SpmEcode × Nat × SpmCfg × List IoCall :=
  let r := ioctl_read_config sys e jk.m jk.b jk.h jk.mode8
  if r.1 < 0 then (spm_map_errno r.2.1, r.2.1, cfg, r.2.2.2.2.2)
  else (SpmEcode.ok, r.2.1, fill_config cfg r.2.2.1 r.2.2.2.1 r.2.2.2.2.1, r.2.2.2.2.2)

/-- `write_device_config` (spi_monkey.c lines 274-288): apply the
config, then read back the effective config into the uninitialized
local `actual_cfg` (modelled by `jk.ac`) and copy it wholesale over
the caller's config.  On any failure the caller's config is returned
unchanged. -/
def write_device_config (sys : Sys) (e : Nat) (cfg : SpmCfg) (jk : Junk) :
    SpmEcode × Nat × SpmCfg × List IoCall :=
  let w := ioctl_write_config sys e cfg
  if w.1 < 0 then (spm_map_errno w.2.1, w.2.1, cfg, w.2.2)
  else
    let r := read_device_config sys w.2.1 jk.ac jk
    if r.1 ≠ SpmEcode.ok then (r.1, r.2.1, cfg, w.2.2 ++ r.2.2.2)
    else (SpmEcode.ok, r.2.1, r.2.2.1, w.2.2 ++ r.2.2.2)

/-- `struct spm_device` (spi_monkey.c lines 13-19), restricted to the
fields the claims observe: the descriptor, the cached configuration
and the injected table's ioctl behaviors.  The `path` string and the
`err` diagnostic record are not modelled; a non-null pointer is
modelled by the value existing at all, and a device constructed by
`spm_dev_open_sys_ops` always carries a complete table, so
`v_sys_is_valid(dev->sys)` reduces to the descriptor check here. -/
structure SpmDevice where
  fd  : Int
  cfg : SpmCfg
  sys : Sys
  deriving Repr, DecidableEq

/-- `v_fd_is_valid` (spi_monkey.c lines 34-37). -/
def v_fd_is_valid (fd : Int) : Bool := fd ≥ 0

/-- `v_dev_is_valid` (spi_monkey.c lines 39-46) on a non-null device
whose table is complete by construction. -/
def v_dev_is_valid (dev : SpmDevice) : Bool := v_fd_is_valid dev.fd

/-- `spm_batch_xfer_t` (spi_monkey.h lines 44-52): `tx`/`rx` are
addresses with 0 = NULL, `len` is `size_t`. -/
structure SpmBatchXfer where
  tx            : Nat
  rx            : Nat
  len           : Nat
  speed_hz      : Nat
  bits_per_word : Nat
  delay_usecs   : Nat
  cs_change     : Bool
  deriving Repr, DecidableEq

/-- The descriptor built from one `spm_batch_xfer_t` by
`ioctl_build_kernel_transfers` (spi_monkey.c lines 231-243): zero
speed or word-size overrides inherit the cached configuration, the
length is cast to `uint32_t` (an identity under the validation just
performed). -/
def build_kernel_transfer (cfg : SpmCfg) (x : SpmBatchXfer) : SpiIocTransfer :=
  { tx_buf        := x.tx
    rx_buf        := x.rx
    len           := x.len % 2 ^ 32
    speed_hz      := if x.speed_hz ≠ 0 then x.speed_hz else cfg.speed_hz
    bits_per_word := if x.bits_per_word ≠ 0 then x.bits_per_word else cfg.bits_per_word
    delay_usecs   := x.delay_usecs
    cs_change     := if x.cs_change then 1 else 0 }

/-- `ioctl_build_kernel_transfers` (spi_monkey.c lines 213-247):
validate each descriptor (at least one buffer; nonzero length not
above `UINT32_MAX`) and build the kernel transfer array, failing with
`SPM_EPARAM` on the first invalid descriptor.  The partially built
array of the failing case is never observed by the caller. -/
def ioctl_build_kernel_transfers (cfg : SpmCfg) :
    List SpmBatchXfer → Except SpmEcode (List SpiIocTransfer)
  | [] => Except.ok []
  | x :: rest =>
    if x.tx = 0 ∧ x.rx = 0 then Except.error SpmEcode.eparam
    else if x.len = 0 ∨ x.len > UINT32_MAX then Except.error SpmEcode.eparam
    else
      match ioctl_build_kernel_transfers cfg rest with
      | Except.ok trs => Except.ok (build_kernel_transfer cfg x :: trs)
      | Except.error rc => Except.error rc

/-- The `SPI_IOC_MESSAGE(n)` dispatch call (the single `ioctl_` in
`spm_transfer` and `spm_batch`). -/
def sys_message (sys : Sys) (e : Nat) (trs : List SpiIocTransfer) : Int × Nat × List IoCall :=
  let r := rawIoctl sys.message e 0 32 (IoCall.message trs)
  (r.1, r.2.1, r.2.2.2)

/-- `spm_transfer` (spi_monkey.c lines 350-371).  `tx`/`rx` are buffer
addresses with 0 = NULL; `len` is the `size_t` argument.  Result is
`(rc, errno afterwards, trace of ioctl calls issued)`. -/
def spm_transfer (dev : SpmDevice) (tx rx : Nat) (len : Nat) (e : Nat) :
    SpmEcode × Nat × List IoCall :=
  if ¬ v_dev_is_valid dev then (SpmEcode.estate, e, [])
  else if ¬ (tx ≠ 0 ∨ rx ≠ 0) then (SpmEcode.eparam, e, [])
  else if ¬ (len > 0 ∧ len ≤ UINT32_MAX) then (SpmEcode.eparam, e, [])
  else
    let tr : SpiIocTransfer :=
      { tx_buf        := tx
        rx_buf        := rx
        len           := len % 2 ^ 32
        speed_hz      := dev.cfg.speed_hz
        bits_per_word := dev.cfg.bits_per_word
        delay_usecs   := dev.cfg.delay_usecs
        cs_change     := if dev.cfg.cs_change then 1 else 0 }
    let r := sys_message dev.sys e [tr]
    if r.1 < 0 then (spm_map_errno r.2.1, r.2.1, r.2.2)
    else (SpmEcode.ok, r.2.1, r.2.2)

/-- `spm_batch` (spi_monkey.c lines 373-407).  `xfers = none` models a
NULL descriptor array; otherwise the list holds the `count` descriptors.
The stack/heap selection for the transfer array (threshold 32) is pure
allocation policy with allocation modelled as succeeding, so both
branches behave identically here. -/
def spm_batch (dev : SpmDevice) (xfers : Option (List SpmBatchXfer)) (e : Nat) :
    SpmEcode × Nat × List IoCall :=
  if ¬ v_dev_is_valid dev then (SpmEcode.estate, e, [])
  else
    match xfers with
    | none => (SpmEcode.eparam, e, [])
    | some xs =>
      if ¬ (xs.length > 0 ∧ xs.length ≤ SPM_MAX_BATCH_XFERS) then (SpmEcode.eparam, e, [])
      else
        match ioctl_build_kernel_transfers dev.cfg xs with
        | Except.error rc => (rc, e, [])
        | Except.ok trs =>
          let r := sys_message dev.sys e trs
          if r.1 < 0 then (spm_map_errno r.2.1, r.2.1, r.2.2)
          else (SpmEcode.ok, r.2.1, r.2.2)

/-- `spm_dev_set_cfg` (spi_monkey.c lines 430-445): sanitize a copy,
apply-and-verify it, and only on full success overwrite the cached
configuration with the verified copy.  `cfg = none` models a NULL
config pointer.  Result is `(rc, device afterwards, errno, trace)`. -/
def spm_dev_set_cfg (dev : SpmDevice) (cfg : Option SpmCfg) (e : Nat) (jk : Junk) :
    SpmEcode × SpmDevice × Nat × List IoCall :=
  if ¬ v_dev_is_valid dev then (SpmEcode.estate, dev, e, [])
  else
    match cfg with
    | none => (SpmEcode.eparam, dev, e, [])
    | some c =>
      let tmp := sanitize_cfg c
      let w := write_device_config dev.sys e tmp jk
      if w.1 ≠ SpmEcode.ok then (w.1, dev, w.2.1, w.2.2.2)
      else (SpmEcode.ok, { dev with cfg := w.2.2.1 }, w.2.1, w.2.2.2)

/-- `spm_dev_refresh_cfg` (spi_monkey.c lines 447-453): read the
driver state directly into the cached configuration (which therefore
keeps its `delay_usecs`/`cs_change` and is untouched on failure). -/
def spm_dev_refresh_cfg (dev : SpmDevice) (e : Nat) (jk : Junk) :
    SpmEcode × SpmDevice × Nat × List IoCall :=
  if ¬ v_dev_is_valid dev then (SpmEcode.estate, dev, e, [])
  else
    let r := read_device_config dev.sys e dev.cfg jk
    (r.1, { dev with cfg := r.2.2.1 }, r.2.1, r.2.2.2)

/-- `spm_dev_set_speed` (spi_monkey.c lines 455-462). -/
def spm_dev_set_speed (dev : SpmDevice) (speed_hz : Nat) (e : Nat) (jk : Junk) :
    SpmEcode × SpmDevice × Nat × List IoCall :=
  if ¬ v_dev_is_valid dev then (SpmEcode.estate, dev, e, [])
  else if ¬ (speed_hz > 0) then (SpmEcode.eparam, dev, e, [])
  else spm_dev_set_cfg dev (some { dev.cfg with speed_hz := speed_hz }) e jk

/-- `spm_dev_set_mode` (spi_monkey.c lines 464-470): copy the cached
configuration, overwrite its mode, reapply through `spm_dev_set_cfg`. -/
def spm_dev_set_mode (dev : SpmDevice) (mode : Nat) (e : Nat) (jk : Junk) :
    SpmEcode × SpmDevice × Nat × List IoCall :=
  if ¬ v_dev_is_valid dev then (SpmEcode.estate, dev, e, [])
  else spm_dev_set_cfg dev (some { dev.cfg with mode := mode }) e jk

/-- `spm_dev_set_bpw` (spi_monkey.c lines 472-478). -/
def spm_dev_set_bpw (dev : SpmDevice) (bpw : Nat) (e : Nat) (jk : Junk) :
    SpmEcode × SpmDevice × Nat × List IoCall :=
  if ¬ v_dev_is_valid dev then (SpmEcode.estate, dev, e, [])
  else spm_dev_set_cfg dev (some { dev.cfg with bits_per_word := bpw }) e jk

/-- An injected `spm_sys_ops_t` table as passed to open: the three
function pointers' non-nullness, the behavior of `open_` (its return
code is the descriptor, its `eno` the errno set on failure) and the
behaviors of `ioctl_`.  `close_` needs no behavior here: no claim
observes it. -/
structure SysOps where
  has_open  : Bool
  has_close : Bool
  has_ioctl : Bool
  openBeh   : IoBeh
  ioctl     : Sys
  deriving Repr, DecidableEq

/-- `v_sys_is_valid` (spi_monkey.c lines 29-32): non-null table with
all three entries non-null. -/
def v_sys_is_valid (s : Option SysOps) : Bool :=
  match s with
  | none => false
  | some t => t.has_open && t.has_close && t.has_ioctl

/-- `spm_dev_open_sys_ops` (spi_monkey.c lines 294-329) together with
`validate_open_parameters` (lines 48-54).  `out_dev_nonnull` models the
`out_dev` pointer being non-null; `sys0 = none` models a NULL table, in
which case `SPM_SYS_DEFAULT` (`dflt`, complete by construction, with
the behaviors of the real OS left abstract) is substituted.  `calloc`
is modelled as succeeding.  Result is `(rc, the device stored through
out_dev on success, errno, ioctl trace)`; on every failure path after a
successful open the descriptor is closed and the session freed, which
the model reflects by returning no device. -/
def spm_dev_open_sys_ops (bus cs : Nat) (cfg : Option SpmCfg) (sys0 : Option SysOps)
    (out_dev_nonnull : Bool) (dflt : SysOps) (e : Nat) (jk : Junk) :
    SpmEcode × Option SpmDevice × Nat × List IoCall :=
  if ¬ out_dev_nonnull then (SpmEcode.eparam, none, e, [])
  else
    let sys := sys0.getD dflt
    if ¬ v_sys_is_valid (some sys) then (SpmEcode.eparam, none, e, [])
    else
      -- snprintf of "/dev/spidev<bus>.<cs>" into path, then open_(path, O_RDWR)
      let fd := sys.openBeh.rc
      let e1 := if fd < 0 then sys.openBeh.eno else e
      if fd < 0 then (spm_map_errno e1, none, e1, [])
      else
        let initial := sanitize_cfg (cfg.getD get_default_cfg)
        let dev : SpmDevice := { fd := fd, cfg := initial, sys := sys.ioctl }
        let w := write_device_config sys.ioctl e1 initial jk
        if w.1 ≠ SpmEcode.ok then (w.1, none, w.2.1, w.2.2.2)
        else (SpmEcode.ok, some { dev with cfg := w.2.2.1 }, w.2.1, w.2.2.2)

/-- The invariant the claims state for the cached configuration: a
defined clock mode and a word size within the driver-supported range. -/
def cfg_inv (c : SpmCfg) : Prop :=
  c.mode ≤ 3 ∧ SPM_MIN_BPW_VALUE ≤ c.bits_per_word ∧ c.bits_per_word ≤ SPM_MAX_BPW_VALUE

/-- POSIX errno contract for one behavior: a failing call sets a
nonzero `errno`. -/
def IoBehWf (b : IoBeh) : Prop := b.rc < 0 → b.eno ≠ 0

/-- POSIX errno contract for a whole injected table. -/
def SysWf (sys : Sys) : Prop :=
  IoBehWf sys.rdMode32 ∧ IoBehWf sys.rdMode8 ∧ IoBehWf sys.rdBpw ∧ IoBehWf sys.rdSpeed ∧
  IoBehWf sys.wrMode32 ∧ IoBehWf sys.wrMode8 ∧ IoBehWf sys.wrSpeed ∧ IoBehWf sys.wrBpw ∧
  IoBehWf sys.message

/-- The three write steps of `ioctl_write_config` all succeed: the mode
write succeeds on its 32-bit path or on its 8-bit fallback, and the
speed and word-size writes do not fail. -/
def write_steps_ok (sys : Sys) : Prop :=
  (sys.wrMode32.rc = 0 ∨ 0 ≤ sys.wrMode8.rc) ∧ 0 ≤ sys.wrSpeed.rc ∧ 0 ≤ sys.wrBpw.rc

/-- The three read steps of `ioctl_read_config` all succeed. -/
def read_steps_ok (sys : Sys) : Prop :=
  (sys.rdMode32.rc = 0 ∨ 0 ≤ sys.rdMode8.rc) ∧ 0 ≤ sys.rdBpw.rc ∧ 0 ≤ sys.rdSpeed.rc

/-- Request classifiers for trace statements. -/
def is_mode_write : IoCall → Bool
  | IoCall.wrMode32 _ => true
  | IoCall.wrMode8 _ => true
  | _ => false

def is_speed_write : IoCall → Bool
  | IoCall.wrSpeed _ => true
  | _ => false

def is_bpw_write : IoCall → Bool
  | IoCall.wrBpw _ => true
  | _ => false

def is_read_req : IoCall → Bool
  | IoCall.rdMode32 => true
  | IoCall.rdMode8 => true
  | IoCall.rdBpw => true
  | IoCall.rdSpeed => true
  | _ => false

/-- A driver behavior that succeeds and reads back `v`. -/
def echoBeh (v : Nat) : IoBeh := { rc := 0, eno := 0, val := v }

/-- A fully succeeding concrete driver: reads return mode mask 0,
word size 8 and 1 MHz, writes succeed. -/
def okSys : Sys :=
  { rdMode32 := echoBeh 0, rdMode8 := echoBeh 0, rdBpw := echoBeh 8
    rdSpeed := echoBeh 1000000, wrMode32 := echoBeh 0, wrMode8 := echoBeh 0
    wrSpeed := echoBeh 0, wrBpw := echoBeh 0, message := echoBeh 0 }

/-- A behavior failing with the given errno. -/
def failBeh (eno : Nat) : IoBeh := { rc := -1, eno := eno, val := 0 }

/-- A concrete open session used to instantiate witnesses. -/
def dev0 : SpmDevice :=
  { fd := 1, cfg := get_default_cfg, sys := okSys }

/-- A concrete complete table (the shape of `SPM_SYS_DEFAULT`). -/
def dflt0 : SysOps :=
  { has_open := true, has_close := true, has_ioctl := true
    openBeh := { rc := 1, eno := 0, val := 0 }, ioctl := okSys }

/-- C8: for each of the four defined clock modes, decoding the mode
component of the encoded mode mask yields the mode back:
`mask_to_mode (mode_to_mask m) = m` for m = SPM_MODE0..SPM_MODE3. -/
theorem claim_c8_mode_mask_roundtrip :
    mask_to_mode (mode_to_mask 0) = 0 ∧ mask_to_mode (mode_to_mask 1) = 1 ∧
    mask_to_mode (mode_to_mask 2) = 2 ∧ mask_to_mode (mode_to_mask 3) = 3 := by
  decide

/-- Closed form of `sanitize_cfg` on an exploded configuration. -/
theorem sanitize_cfg_mk (m s b : Nat) (l ch : Bool) (d : Nat) (cc : Bool) :
    sanitize_cfg ⟨m, s, b, l, ch, d, cc⟩ =
      ⟨if m > 3 then 0 else m,
       if s = 0 then SPM_DEFAULT_SPEED_HZ else s,
       if b < 8 then 8 else if b > 32 then 32 else b,
       l, ch, d, cc⟩ := by
  simp only [sanitize_cfg, SPM_MIN_BPW_VALUE, SPM_MAX_BPW_VALUE]
  split_ifs <;> simp_all <;> omega

/-- C9: sanitization is idempotent: for every configuration value,
including zero or out-of-range fields, `sanitize_cfg (sanitize_cfg cfg)
= sanitize_cfg cfg`. -/
theorem claim_c9_sanitize_idempotent (cfg : SpmCfg) :
    sanitize_cfg (sanitize_cfg cfg) = sanitize_cfg cfg := by
  obtain ⟨m, s, b, l, ch, d, cc⟩ := cfg
  rw [sanitize_cfg_mk, sanitize_cfg_mk]
  simp only [SpmCfg.mk.injEq, SPM_DEFAULT_SPEED_HZ]
  refine ⟨?_, ?_, ?_, trivial, trivial, trivial, trivial⟩ <;> split_ifs <;> omega

/-- C7: on an open session, `spm_transfer` with both buffers NULL, or
with length 0, or with length above `UINT32_MAX`, returns
`SPM_EPARAM` and issues no ioctl call at all. -/
theorem claim_c7_transfer_invalid_params (dev : SpmDevice) (tx rx len e : Nat)
    (hdev : v_dev_is_valid dev = true)
    (h : (tx = 0 ∧ rx = 0) ∨ len = 0 ∨ len > UINT32_MAX) :
    spm_transfer dev tx rx len e = (SpmEcode.eparam, e, []) := by
  simp only [spm_transfer, hdev, not_true_eq_false, if_false]
  rcases h with ⟨h1, h2⟩ | h | h
  · subst h1; subst h2; simp
  · simp only [h]
    split_ifs with h1 h2 <;> simp_all
  · split_ifs with h1 h2 <;> simp_all <;> omega

/-- Witness for C7 at a concrete session and argument set. -/
theorem claim_c7_transfer_invalid_params_witness :
    spm_transfer dev0 0 0 5 17 = (SpmEcode.eparam, 17, []) :=
  claim_c7_transfer_invalid_params dev0 0 0 5 17 (by decide) (Or.inl ⟨rfl, rfl⟩)

/-- A concrete non-null but incomplete table: its `ioctl_` entry is
NULL (`has_ioctl := false`). -/
def incompleteSysOps : SysOps :=
  { has_open := true, has_close := true, has_ioctl := false
    openBeh := { rc := 1, eno := 0, val := 0 }, ioctl := okSys }

/-- C4 counterexample: opening with a non-null table whose `ioctl_`
entry is missing fails with `SPM_EPARAM` (invalid-parameter), which is
not the resource / out-of-memory code `SPM_ENOMEM` the claim names. -/
theorem claim_c4_counterexample :
    (spm_dev_open_sys_ops 0 0 none (some incompleteSysOps) true dflt0 0 junk0).1
      = SpmEcode.eparam ∧
    SpmEcode.eparam ≠ SpmEcode.enomem := by
  decide

/-- C4 as amended: for every bus, chip-select and configuration
argument, `spm_dev_open_sys_ops` called with a non-null but incomplete
syscall table (missing any of open/close/ioctl) fails with the
invalid-parameter error, storing no session and issuing no ioctl. -/
theorem claim_c4_open_incomplete_table (bus cs : Nat) (cfg : Option SpmCfg)
    (t : SysOps) (out : Bool) (dflt : SysOps) (e : Nat) (jk : Junk)
    (h : v_sys_is_valid (some t) = false) :
    spm_dev_open_sys_ops bus cs cfg (some t) out dflt e jk
      = (SpmEcode.eparam, none, e, []) := by
  cases out <;> simp [spm_dev_open_sys_ops, h]

/-- Witness for the amended C4 at a concrete incomplete table. -/
theorem claim_c4_open_incomplete_table_witness :
    spm_dev_open_sys_ops 3 1 none (some incompleteSysOps) true dflt0 9 junk0
      = (SpmEcode.eparam, none, 9, []) :=
  claim_c4_open_incomplete_table 3 1 none incompleteSysOps true dflt0 9 junk0 (by decide)

/-- A batch descriptor passing `ioctl_build_kernel_transfers`'s checks:
at least one buffer, nonzero 32-bit-representable length. -/
def batch_xfer_valid (x : SpmBatchXfer) : Prop :=
  (x.tx ≠ 0 ∨ x.rx ≠ 0) ∧ x.len ≠ 0 ∧ x.len ≤ UINT32_MAX

instance (x : SpmBatchXfer) : Decidable (batch_xfer_valid x) := by
  unfold batch_xfer_valid; infer_instance

/-- Building fails with `SPM_EPARAM` as soon as some descriptor is
invalid. -/
theorem build_kernel_transfers_invalid (cfg : SpmCfg) (xs : List SpmBatchXfer)
    (h : ∃ x ∈ xs, ¬ batch_xfer_valid x) :
    ioctl_build_kernel_transfers cfg xs = Except.error SpmEcode.eparam := by
  induction xs with
  | nil => simp at h
  | cons x rest ih =>
    rcases h with ⟨y, hy, hyv⟩
    simp only [List.mem_cons] at hy
    simp only [ioctl_build_kernel_transfers]
    rcases hy with rfl | hy
    · simp only [batch_xfer_valid, not_and_or, not_or, not_not] at hyv
      rcases hyv with ⟨h1, h2⟩ | h3
      · simp [h1, h2]
      · split_ifs with hb hl
        · rfl
        · rfl
        · exact absurd h3 (by push_neg at hl ⊢; omega)
    · split_ifs with hb hl
      · rfl
      · rfl
      · rw [ih ⟨y, hy, hyv⟩]

/-- Building succeeds and maps each descriptor through
`build_kernel_transfer` when every descriptor is valid. -/
theorem build_kernel_transfers_valid (cfg : SpmCfg) (xs : List SpmBatchXfer)
    (h : ∀ x ∈ xs, batch_xfer_valid x) :
    ioctl_build_kernel_transfers cfg xs
      = Except.ok (xs.map (build_kernel_transfer cfg)) := by
  induction xs with
  | nil => rfl
  | cons x rest ih =>
    have hx := h x (by simp)
    obtain ⟨h1, h2, h3⟩ := hx
    simp only [ioctl_build_kernel_transfers, List.map_cons]
    rw [ih (fun y hy => h y (List.mem_cons_of_mem x hy))]
    split_ifs with hb hl
    · rcases hb with ⟨hb1, hb2⟩; tauto
    · omega
    · rfl

/-- C3: on an open session, a batch containing any descriptor lacking
both buffers or with a zero or non-32-bit-representable length returns
`SPM_EPARAM` and issues no ioctl at all; and when the count is in
1..256 and every descriptor is valid, `spm_batch` issues exactly one
dispatch ioctl, a single `SPI_IOC_MESSAGE` carrying all `count` built
descriptors. -/
theorem claim_c3_batch_validate_then_dispatch_once (dev : SpmDevice)
    (xs : List SpmBatchXfer) (e : Nat) (hdev : v_dev_is_valid dev = true) :
    ((∃ x ∈ xs, ¬ batch_xfer_valid x) →
       spm_batch dev (some xs) e = (SpmEcode.eparam, e, [])) ∧
    (1 ≤ xs.length → xs.length ≤ SPM_MAX_BATCH_XFERS →
       (∀ x ∈ xs, batch_xfer_valid x) →
       (spm_batch dev (some xs) e).2.2
         = [IoCall.message (xs.map (build_kernel_transfer dev.cfg))] ∧
       (xs.map (build_kernel_transfer dev.cfg)).length = xs.length) := by
  constructor
  · intro h
    simp only [spm_batch, hdev, not_true_eq_false, if_false]
    rw [build_kernel_transfers_invalid dev.cfg xs h]
    split_ifs with hc
    · rfl
    · rfl
  · intro h1 h2 h3
    simp only [spm_batch, hdev, not_true_eq_false, if_false]
    rw [build_kernel_transfers_valid dev.cfg xs h3]
    have hc : xs.length > 0 ∧ xs.length ≤ SPM_MAX_BATCH_XFERS := ⟨h1, h2⟩
    simp only [hc, not_true_eq_false, if_false, sys_message, rawIoctl, List.length_map,
      and_true]
    split_ifs <;> rfl

/-- Witness for C3: a concrete two-descriptor batch (lengths 2 and 3,
distinct buffers) on a concrete session issues exactly one dispatch
call carrying both descriptors, and a concrete batch with a
zero-length descriptor returns `SPM_EPARAM` with no ioctl issued. -/
theorem claim_c3_batch_validate_then_dispatch_once_witness :
    spm_batch dev0
        (some [{ tx := 100, rx := 0, len := 2, speed_hz := 0, bits_per_word := 0,
                 delay_usecs := 0, cs_change := false },
               { tx := 200, rx := 300, len := 3, speed_hz := 0, bits_per_word := 0,
                 delay_usecs := 0, cs_change := false }]) 0
      = (SpmEcode.ok, 0,
         [IoCall.message
            [{ tx_buf := 100, rx_buf := 0, len := 2, speed_hz := 1000000,
               bits_per_word := 8, delay_usecs := 0, cs_change := 0 },
             { tx_buf := 200, rx_buf := 300, len := 3, speed_hz := 1000000,
               bits_per_word := 8, delay_usecs := 0, cs_change := 0 }]]) ∧
    spm_batch dev0
        (some [{ tx := 100, rx := 0, len := 0, speed_hz := 0, bits_per_word := 0,
                 delay_usecs := 0, cs_change := false }]) 0
      = (SpmEcode.eparam, 0, []) := by
  constructor
  · have := (claim_c3_batch_validate_then_dispatch_once dev0
      [{ tx := 100, rx := 0, len := 2, speed_hz := 0, bits_per_word := 0,
         delay_usecs := 0, cs_change := false },
       { tx := 200, rx := 300, len := 3, speed_hz := 0, bits_per_word := 0,
         delay_usecs := 0, cs_change := false }] 0 (by decide)).2
      (by decide) (by decide) (by decide)
    exact Prod.ext (by decide) (Prod.ext (by decide) this.1)
  · exact (claim_c3_batch_validate_then_dispatch_once dev0
      [{ tx := 100, rx := 0, len := 0, speed_hz := 0, bits_per_word := 0,
         delay_usecs := 0, cs_change := false }] 0 (by decide)).1
      ⟨{ tx := 100, rx := 0, len := 0, speed_hz := 0, bits_per_word := 0,
         delay_usecs := 0, cs_change := false }, by simp, by decide⟩

/-- A driver whose 32-bit mode read fails with errno EIO (5, an I/O
fault, not an "unsupported" rejection) and whose 8-bit legacy mode
read fails with errno ENOTTY (25, not-supported). -/
def dualFailSys : Sys := { okSys with rdMode32 := failBeh 5, rdMode8 := failBeh 25 }

/-- C5 counterexample: with `dualFailSys` the code falls back to the
8-bit path even though the 32-bit failure was EIO rather than an
unsupported rejection (the trace contains the legacy read), and when
both paths fail, the reported failure is the 8-bit path's ENOTTY
(classified `SPM_ENOTSUP`), not the preserved original EIO of the
32-bit path (which would classify as `SPM_EIO`). -/
theorem claim_c5_counterexample :
    (read_device_config dualFailSys 0 get_default_cfg junk0).1 = SpmEcode.enotsup ∧
    SpmEcode.enotsup ≠ SpmEcode.eioFault ∧
    spm_map_errno 5 = SpmEcode.eioFault ∧
    IoCall.rdMode8 ∈ (read_device_config dualFailSys 0 get_default_cfg junk0).2.2.2 := by
  decide

/-- C5 as amended: a mode read or write first attempts the 32-bit mode
representation and falls back to the 8-bit legacy representation on
any unsuccessful (nonzero) return of the 32-bit call; a success of the
8-bit path makes the overall operation succeed; and when both paths
fail, the reported failure (return code and errno) is that of the
8-bit legacy path. -/
theorem claim_c5_mode_dual_path (sys : Sys) (e m0 j8 v : Nat) :
    ((ioctl_read_mode sys e m0 j8).2.2.2.head? = some IoCall.rdMode32) ∧
    (sys.rdMode32.rc = 0 →
       (ioctl_read_mode sys e m0 j8).2.2.2 = [IoCall.rdMode32] ∧
       (ioctl_read_mode sys e m0 j8).1 = 0) ∧
    (sys.rdMode32.rc ≠ 0 →
       (ioctl_read_mode sys e m0 j8).2.2.2 = [IoCall.rdMode32, IoCall.rdMode8] ∧
       (0 ≤ sys.rdMode8.rc → (ioctl_read_mode sys e m0 j8).1 = 0) ∧
       (sys.rdMode8.rc < 0 →
          (ioctl_read_mode sys e m0 j8).1 = sys.rdMode8.rc ∧
          (ioctl_read_mode sys e m0 j8).2.1 = sys.rdMode8.eno)) ∧
    ((ioctl_write_mode sys e v).2.2.head? = some (IoCall.wrMode32 v)) ∧
    (sys.wrMode32.rc = 0 →
       (ioctl_write_mode sys e v).2.2 = [IoCall.wrMode32 v] ∧
       (ioctl_write_mode sys e v).1 = 0) ∧
    (sys.wrMode32.rc ≠ 0 →
       (ioctl_write_mode sys e v).2.2 = [IoCall.wrMode32 v, IoCall.wrMode8 (v % 256)] ∧
       (ioctl_write_mode sys e v).1 = sys.wrMode8.rc ∧
       (sys.wrMode8.rc < 0 → (ioctl_write_mode sys e v).2.1 = sys.wrMode8.eno)) := by
  simp only [ioctl_read_mode, ioctl_read_mode32, ioctl_read_mode8, ioctl_write_mode,
    ioctl_write_mode32, ioctl_write_mode8, rawIoctl]
  split_ifs <;> simp_all <;> omega

/-- Witness for the amended C5 at a concrete driver, discharging the
fallback hypotheses of both the read and the write conjuncts. -/
theorem claim_c5_mode_dual_path_witness :
    (ioctl_read_mode dualFailSys 0 0 0).1 = (-1 : Int) ∧
    (ioctl_read_mode dualFailSys 0 0 0).2.1 = 25 ∧
    (ioctl_write_mode dualFailSys 0 7).2.2 = [IoCall.wrMode32 7] := by
  have h := claim_c5_mode_dual_path dualFailSys 0 0 0 7
  refine ⟨?_, ?_, ?_⟩
  · exact ((h.2.2.1 (by decide)).2.2 (by decide)).1
  · exact ((h.2.2.1 (by decide)).2.2 (by decide)).2
  · exact (h.2.2.2.2.1 (by decide)).1

/-- A nonzero errno never classifies as success. -/
theorem spm_map_errno_ne_ok (e : Nat) (h : e ≠ 0) : spm_map_errno e ≠ SpmEcode.ok := by
  unfold spm_map_errno
  split <;> simp_all

/-- The decoded mode component is always one of the four defined modes. -/
theorem mask_to_mode_le_3 (mask : Nat) : mask_to_mode mask ≤ 3 := by
  unfold mask_to_mode
  split_ifs <;> simp

/-- The clamped word size always lands in the supported range. -/
theorem clamp_bpw_bounds (bpw : Nat) :
    SPM_MIN_BPW_VALUE ≤ clamp_bpw bpw ∧ clamp_bpw bpw ≤ SPM_MAX_BPW_VALUE := by
  simp only [clamp_bpw, SPM_MIN_BPW_VALUE, SPM_MAX_BPW_VALUE]
  split_ifs <;> omega

/-- Any configuration produced by `fill_config` from a clamped word
size satisfies the cached-configuration invariant. -/
theorem fill_config_inv (cfg : SpmCfg) (mask bpw hz : Nat) :
    cfg_inv (fill_config cfg mask (clamp_bpw bpw) hz) := by
  refine ⟨mask_to_mode_le_3 mask, (clamp_bpw_bounds bpw).1, (clamp_bpw_bounds bpw).2⟩

/-- Result characterization of `ioctl_write_config`: it succeeds
exactly when all three write steps succeed, and under the errno
contract a failure leaves a nonzero errno. -/
theorem ioctl_write_config_spec (sys : Sys) (e : Nat) (cfg : SpmCfg) :
    ((ioctl_write_config sys e cfg).1 < 0 ↔ ¬ write_steps_ok sys) ∧
    (SysWf sys → (ioctl_write_config sys e cfg).1 < 0 →
       (ioctl_write_config sys e cfg).2.1 ≠ 0) := by
  simp only [ioctl_write_config, ioctl_write_mode, ioctl_write_mode32, ioctl_write_mode8,
    ioctl_write_speed, ioctl_write_bpw, rawIoctl, write_steps_ok, SysWf, IoBehWf]
  split_ifs <;> simp_all <;> omega

/-- Result characterization of `ioctl_read_config`: it fails exactly
when some read step fails, a failure leaves a nonzero errno under the
errno contract, and on success the returned word size is the clamped
byte the driver wrote. -/
theorem ioctl_read_config_spec (sys : Sys) (e m0 b0 h0 j8 : Nat) :
    ((ioctl_read_config sys e m0 b0 h0 j8).1 < 0 ↔ ¬ read_steps_ok sys) ∧
    (SysWf sys → (ioctl_read_config sys e m0 b0 h0 j8).1 < 0 →
       (ioctl_read_config sys e m0 b0 h0 j8).2.1 ≠ 0) ∧
    (¬ (ioctl_read_config sys e m0 b0 h0 j8).1 < 0 →
       (ioctl_read_config sys e m0 b0 h0 j8).2.2.2.1 = clamp_bpw (sys.rdBpw.val % 2 ^ 8)) := by
  simp only [ioctl_read_config, ioctl_read_mode, ioctl_read_mode32, ioctl_read_mode8,
    ioctl_read_bpw, ioctl_read_speed, rawIoctl, read_steps_ok, SysWf, IoBehWf]
  split_ifs <;> simp_all <;> omega

/-- `fill_config` never touches the two policy fields of its target. -/
theorem fill_config_policy (cfg : SpmCfg) (mask bpw hz : Nat) :
    (fill_config cfg mask bpw hz).delay_usecs = cfg.delay_usecs ∧
    (fill_config cfg mask bpw hz).cs_change = cfg.cs_change :=
  ⟨rfl, rfl⟩

/-- Result characterization of `read_device_config`: on failure the
target is untouched; under the errno contract it succeeds exactly when
all read steps succeed, and then the target satisfies the invariant
while keeping its policy fields. -/
theorem read_device_config_spec (sys : Sys) (e : Nat) (cfg : SpmCfg) (jk : Junk) :
    ((read_device_config sys e cfg jk).1 ≠ SpmEcode.ok →
       (read_device_config sys e cfg jk).2.2.1 = cfg) ∧
    (SysWf sys →
       (((read_device_config sys e cfg jk).1 = SpmEcode.ok ↔ read_steps_ok sys) ∧
        ((read_device_config sys e cfg jk).1 = SpmEcode.ok →
           cfg_inv (read_device_config sys e cfg jk).2.2.1 ∧
           (read_device_config sys e cfg jk).2.2.1.delay_usecs = cfg.delay_usecs ∧
           (read_device_config sys e cfg jk).2.2.1.cs_change = cfg.cs_change))) := by
  obtain ⟨hiff, herr, hbpw⟩ := ioctl_read_config_spec sys e jk.m jk.b jk.h jk.mode8
  simp only [read_device_config]
  by_cases hlt : (ioctl_read_config sys e jk.m jk.b jk.h jk.mode8).1 < 0
  · rw [if_pos hlt]
    exact ⟨fun _ => rfl, fun hwf =>
      have hne := spm_map_errno_ne_ok _ (herr hwf hlt)
      ⟨⟨fun h => absurd h hne, fun h => absurd h (hiff.mp hlt)⟩,
       fun h => absurd h hne⟩⟩
  · rw [if_neg hlt]
    refine ⟨fun hne => absurd rfl hne, fun _ =>
      ⟨⟨fun _ => not_not.mp (fun hs => hlt (hiff.mpr hs)), fun _ => rfl⟩, fun _ => ?_⟩⟩
    rw [hbpw hlt]
    exact ⟨fill_config_inv cfg _ _ _, rfl, rfl⟩

/-- Result characterization of `write_device_config`: on failure the
caller's config is returned unchanged; under the errno contract it
succeeds exactly when all write and read-back steps succeed, and then
the returned config satisfies the invariant while its policy fields
come from the uninitialized `actual_cfg` local (`jk.ac`), not from the
caller's config. -/
theorem write_device_config_spec (sys : Sys) (e : Nat) (cfg : SpmCfg) (jk : Junk) :
    ((write_device_config sys e cfg jk).1 ≠ SpmEcode.ok →
       (write_device_config sys e cfg jk).2.2.1 = cfg) ∧
    (SysWf sys →
       (((write_device_config sys e cfg jk).1 = SpmEcode.ok ↔
           write_steps_ok sys ∧ read_steps_ok sys) ∧
        ((write_device_config sys e cfg jk).1 = SpmEcode.ok →
           cfg_inv (write_device_config sys e cfg jk).2.2.1 ∧
           (write_device_config sys e cfg jk).2.2.1.delay_usecs = jk.ac.delay_usecs ∧
           (write_device_config sys e cfg jk).2.2.1.cs_change = jk.ac.cs_change))) := by
  obtain ⟨wiff, werr⟩ := ioctl_write_config_spec sys e cfg
  obtain ⟨rfail, rrest⟩ :=
    read_device_config_spec sys (ioctl_write_config sys e cfg).2.1 jk.ac jk
  simp only [write_device_config]
  by_cases hw : (ioctl_write_config sys e cfg).1 < 0
  · rw [if_pos hw]
    exact ⟨fun _ => rfl, fun hwf =>
      have hne := spm_map_errno_ne_ok _ (werr hwf hw)
      ⟨⟨fun h => absurd h hne, fun h => absurd h.1 (wiff.mp hw)⟩,
       fun h => absurd h hne⟩⟩
  · rw [if_neg hw]
    by_cases hr :
        (read_device_config sys (ioctl_write_config sys e cfg).2.1 jk.ac jk).1 ≠ SpmEcode.ok
    · rw [if_pos hr]
      exact ⟨fun _ => rfl, fun hwf =>
        ⟨⟨fun h => absurd h hr, fun h => absurd ((rrest hwf).1.mpr h.2) hr⟩,
         fun h => absurd h hr⟩⟩
    · rw [if_neg hr]
      push_neg at hr
      refine ⟨fun hne => absurd rfl hne, fun hwf => ?_⟩
      have hws : write_steps_ok sys := not_not.mp (fun hn => hw (wiff.mpr hn))
      have hrs : read_steps_ok sys := ((rrest hwf).1).mp hr
      exact ⟨⟨fun _ => ⟨hws, hrs⟩, fun _ => rfl⟩, fun _ => (rrest hwf).2 hr⟩

instance (b : IoBeh) : Decidable (IoBehWf b) := by
  unfold IoBehWf; infer_instance

instance (sys : Sys) : Decidable (SysWf sys) := by
  unfold SysWf; infer_instance

instance (sys : Sys) : Decidable (write_steps_ok sys) := by
  unfold write_steps_ok; infer_instance

instance (sys : Sys) : Decidable (read_steps_ok sys) := by
  unfold read_steps_ok; infer_instance

instance (c : SpmCfg) : Decidable (cfg_inv c) := by
  unfold cfg_inv; infer_instance

/-- C2: whenever `spm_dev_set_cfg` fails, the session (in particular
its cached configuration) is exactly what it was before the call; and
under the errno contract, a failure of any driver write step or of the
read-back makes `spm_dev_set_cfg` fail, so the cache is only
overwritten after a full successful apply-and-verify cycle. -/
theorem claim_c2_set_cfg_failure_keeps_cache (dev : SpmDevice) (c : SpmCfg) (e : Nat)
    (jk : Junk) :
    ((spm_dev_set_cfg dev (some c) e jk).1 ≠ SpmEcode.ok →
       (spm_dev_set_cfg dev (some c) e jk).2.1 = dev) ∧
    (SysWf dev.sys → v_dev_is_valid dev = true →
       ¬ (write_steps_ok dev.sys ∧ read_steps_ok dev.sys) →
       (spm_dev_set_cfg dev (some c) e jk).1 ≠ SpmEcode.ok) := by
  obtain ⟨wfail, wrest⟩ := write_device_config_spec dev.sys e (sanitize_cfg c) jk
  simp only [spm_dev_set_cfg]
  by_cases hv : v_dev_is_valid dev
  · rw [if_neg (by simp [hv])]
    by_cases hw : (write_device_config dev.sys e (sanitize_cfg c) jk).1 ≠ SpmEcode.ok
    · rw [if_pos hw]
      exact ⟨fun _ => rfl, fun _ _ _ => hw⟩
    · rw [if_neg hw]
      push_neg at hw
      exact ⟨fun hne => absurd rfl hne,
             fun hwf _ hns => absurd ((wrest hwf).1.mp hw) hns⟩
  · rw [if_pos (by simpa using hv)]
    exact ⟨fun _ => rfl, fun _ hvv _ => absurd hvv hv⟩

/-- A driver whose speed write fails with errno EINVAL while everything
else succeeds: the mode write succeeds and then the speed write fails,
the partial-application scenario of the claim. -/
def speedFailSys : Sys := { okSys with wrSpeed := failBeh 22 }

/-- A concrete session on the speed-failing driver, with a
recognizable cached configuration. -/
def devSpeedFail : SpmDevice :=
  { fd := 1
    cfg := { mode := 2, speed_hz := 42, bits_per_word := 16, lsb_first := false
             cs_active_high := false, delay_usecs := 7, cs_change := true }
    sys := speedFailSys }

/-- Witness for C2: on the speed-failing driver the call fails and the
session, including its cached configuration, is unchanged. -/
theorem claim_c2_set_cfg_failure_keeps_cache_witness :
    (spm_dev_set_cfg devSpeedFail (some get_default_cfg) 0 junk0).1 ≠ SpmEcode.ok ∧
    (spm_dev_set_cfg devSpeedFail (some get_default_cfg) 0 junk0).2.1 = devSpeedFail := by
  have h := claim_c2_set_cfg_failure_keeps_cache devSpeedFail get_default_cfg 0 junk0
  have hfail := h.2 (by decide) (by decide) (by decide)
  exact ⟨hfail, h.1 hfail⟩

/-- Under the errno contract, a successful `spm_dev_set_cfg` leaves a
cache satisfying the invariant. -/
theorem spm_dev_set_cfg_ok_inv (dev : SpmDevice) (c : SpmCfg) (e : Nat) (jk : Junk)
    (hwf : SysWf dev.sys) (h : (spm_dev_set_cfg dev (some c) e jk).1 = SpmEcode.ok) :
    cfg_inv ((spm_dev_set_cfg dev (some c) e jk).2.1).cfg := by
  obtain ⟨wfail, wrest⟩ := write_device_config_spec dev.sys e (sanitize_cfg c) jk
  revert h
  simp only [spm_dev_set_cfg]
  by_cases hv : v_dev_is_valid dev
  · rw [if_neg (by simp [hv])]
    by_cases hw : (write_device_config dev.sys e (sanitize_cfg c) jk).1 ≠ SpmEcode.ok
    · rw [if_pos hw]
      exact fun h => absurd h hw
    · rw [if_neg hw]
      push_neg at hw
      exact fun _ => ((wrest hwf).2 hw).1
  · rw [if_pos (by simpa using hv)]
    exact fun h => absurd h (by simp)

/-- C10: after a successful open and after every successful
`spm_dev_set_cfg`, `spm_dev_set_speed`, `spm_dev_set_mode`,
`spm_dev_set_bpw` or `spm_dev_refresh_cfg`, the cached mode is one of
the four defined modes and the cached word size lies in [8,32],
regardless of which mode mask or word size the injected driver reports
on read-back (any driver obeying the errno contract). -/
theorem claim_c10_cached_cfg_invariant (dev : SpmDevice) (c : SpmCfg) (sp md bp : Nat)
    (bus cs : Nat) (cfg0 : Option SpmCfg) (t : SysOps) (out : Bool) (dflt : SysOps)
    (e : Nat) (jk : Junk) (d : SpmDevice) :
    (SysWf t.ioctl →
       (spm_dev_open_sys_ops bus cs cfg0 (some t) out dflt e jk).2.1 = some d →
       cfg_inv d.cfg) ∧
    (SysWf dev.sys → (spm_dev_set_cfg dev (some c) e jk).1 = SpmEcode.ok →
       cfg_inv ((spm_dev_set_cfg dev (some c) e jk).2.1).cfg) ∧
    (SysWf dev.sys → (spm_dev_set_speed dev sp e jk).1 = SpmEcode.ok →
       cfg_inv ((spm_dev_set_speed dev sp e jk).2.1).cfg) ∧
    (SysWf dev.sys → (spm_dev_set_mode dev md e jk).1 = SpmEcode.ok →
       cfg_inv ((spm_dev_set_mode dev md e jk).2.1).cfg) ∧
    (SysWf dev.sys → (spm_dev_set_bpw dev bp e jk).1 = SpmEcode.ok →
       cfg_inv ((spm_dev_set_bpw dev bp e jk).2.1).cfg) ∧
    (SysWf dev.sys → (spm_dev_refresh_cfg dev e jk).1 = SpmEcode.ok →
       cfg_inv ((spm_dev_refresh_cfg dev e jk).2.1).cfg) := by
  refine ⟨?_, ?_, ?_, ?_, ?_, ?_⟩
  · -- open
    intro hwf
    simp only [spm_dev_open_sys_ops, Option.getD_some]
    by_cases ho : out = true
    · rw [if_neg (by simp [ho])]
      by_cases hvs : v_sys_is_valid (some t) = true
      · rw [if_neg (by simp [hvs])]
        by_cases hfd : t.openBeh.rc < 0
        · rw [if_pos hfd]
          intro h
          exact absurd h (by simp)
        · rw [if_neg hfd]
          obtain ⟨wfail, wrest⟩ := write_device_config_spec t.ioctl
            (if t.openBeh.rc < 0 then t.openBeh.eno else e)
            (sanitize_cfg (cfg0.getD get_default_cfg)) jk
          by_cases hw : (write_device_config t.ioctl
              (if t.openBeh.rc < 0 then t.openBeh.eno else e)
              (sanitize_cfg (cfg0.getD get_default_cfg)) jk).1 ≠ SpmEcode.ok
          · rw [if_pos hw]
            intro h
            exact absurd h (by simp)
          · rw [if_neg hw]
            push_neg at hw
            intro h
            obtain rfl : _ = d := Option.some_injective _ h
            exact ((wrest hwf).2 hw).1
      · rw [if_pos (by simpa using hvs)]
        intro h
        exact absurd h (by simp)
    · rw [if_pos (by simpa using ho)]
      intro h
      exact absurd h (by simp)
  · exact fun hwf h => spm_dev_set_cfg_ok_inv dev c e jk hwf h
  · -- set_speed delegates to set_cfg
    intro hwf
    simp only [spm_dev_set_speed]
    by_cases hv : v_dev_is_valid dev
    · rw [if_neg (by simp [hv])]
      by_cases hsp : sp > 0
      · rw [if_neg (by simp [hsp])]
        exact spm_dev_set_cfg_ok_inv dev _ e jk hwf
      · rw [if_pos (by simpa using hsp)]
        exact fun h => absurd h (by simp)
    · rw [if_pos (by simpa using hv)]
      exact fun h => absurd h (by simp)
  · intro hwf
    simp only [spm_dev_set_mode]
    by_cases hv : v_dev_is_valid dev
    · rw [if_neg (by simp [hv])]
      exact spm_dev_set_cfg_ok_inv dev _ e jk hwf
    · rw [if_pos (by simpa using hv)]
      exact fun h => absurd h (by simp)
  · intro hwf
    simp only [spm_dev_set_bpw]
    by_cases hv : v_dev_is_valid dev
    · rw [if_neg (by simp [hv])]
      exact spm_dev_set_cfg_ok_inv dev _ e jk hwf
    · rw [if_pos (by simpa using hv)]
      exact fun h => absurd h (by simp)
  · -- refresh
    intro hwf
    simp only [spm_dev_refresh_cfg]
    obtain ⟨rfail, rrest⟩ := read_device_config_spec dev.sys e dev.cfg jk
    by_cases hv : v_dev_is_valid dev
    · rw [if_neg (by simp [hv])]
      intro h
      exact ((rrest hwf).2 h).1
    · rw [if_pos (by simpa using hv)]
      exact fun h => absurd h (by simp)

/-- Witness for C10: concrete successful `spm_dev_set_cfg` and
`spm_dev_refresh_cfg` calls on the always-succeeding driver leave an
invariant-satisfying cache. -/
theorem claim_c10_cached_cfg_invariant_witness :
    cfg_inv ((spm_dev_set_cfg dev0 (some get_default_cfg) 0 junk0).2.1).cfg ∧
    cfg_inv ((spm_dev_refresh_cfg dev0 0 junk0).2.1).cfg := by
  have h := claim_c10_cached_cfg_invariant dev0 get_default_cfg 1 0 8 0 0 none dflt0
    true dflt0 0 junk0 dev0
  exact ⟨h.2.1 (by decide) (by decide), h.2.2.2.2.2 (by decide) (by decide)⟩

/-- The trace of `ioctl_write_config` always decomposes as mode writes,
then speed writes, then word-size writes, and starts with the 32-bit
write of the encoded mode mask. -/
theorem ioctl_write_config_trace_shape (sys : Sys) (e : Nat) (cfg : SpmCfg) :
    ∃ tm ts tb, (ioctl_write_config sys e cfg).2.2 = tm ++ ts ++ tb ∧
      tm.head? = some (IoCall.wrMode32 (cfg_to_mode_mask cfg)) ∧
      tm.all is_mode_write = true ∧ ts.all is_speed_write = true ∧
      tb.all is_bpw_write = true := by
  by_cases h32 : sys.wrMode32.rc = 0
  · by_cases hs : sys.wrSpeed.rc < 0
    · refine ⟨[IoCall.wrMode32 (cfg_to_mode_mask cfg)], [IoCall.wrSpeed cfg.speed_hz], [],
        ?_, rfl, rfl, rfl, rfl⟩
      simp [ioctl_write_config, ioctl_write_mode, ioctl_write_mode32, ioctl_write_mode8,
        ioctl_write_speed, ioctl_write_bpw, rawIoctl, h32, hs]
    · refine ⟨[IoCall.wrMode32 (cfg_to_mode_mask cfg)], [IoCall.wrSpeed cfg.speed_hz],
        [IoCall.wrBpw cfg.bits_per_word], ?_, rfl, rfl, rfl, rfl⟩
      simp only [ioctl_write_config, ioctl_write_mode, ioctl_write_mode32, ioctl_write_mode8,
        ioctl_write_speed, ioctl_write_bpw, rawIoctl]
      rw [if_pos h32]
      simp only [h32]
      rw [if_neg (by omega), if_neg hs]
      split_ifs <;> rfl
  · by_cases h8 : sys.wrMode8.rc < 0
    · refine ⟨[IoCall.wrMode32 (cfg_to_mode_mask cfg),
        IoCall.wrMode8 (cfg_to_mode_mask cfg % 256)], [], [], ?_, rfl, rfl, rfl, rfl⟩
      simp [ioctl_write_config, ioctl_write_mode, ioctl_write_mode32, ioctl_write_mode8,
        ioctl_write_speed, ioctl_write_bpw, rawIoctl, h32, h8]
    · by_cases hs : sys.wrSpeed.rc < 0
      · refine ⟨[IoCall.wrMode32 (cfg_to_mode_mask cfg),
          IoCall.wrMode8 (cfg_to_mode_mask cfg % 256)], [IoCall.wrSpeed cfg.speed_hz], [],
          ?_, rfl, rfl, rfl, rfl⟩
        simp [ioctl_write_config, ioctl_write_mode, ioctl_write_mode32, ioctl_write_mode8,
          ioctl_write_speed, ioctl_write_bpw, rawIoctl, h32, h8, hs]
      · refine ⟨[IoCall.wrMode32 (cfg_to_mode_mask cfg),
          IoCall.wrMode8 (cfg_to_mode_mask cfg % 256)], [IoCall.wrSpeed cfg.speed_hz],
          [IoCall.wrBpw cfg.bits_per_word], ?_, rfl, rfl, rfl, rfl⟩
        simp only [ioctl_write_config, ioctl_write_mode, ioctl_write_mode32,
          ioctl_write_mode8, ioctl_write_speed, ioctl_write_bpw, rawIoctl]
        rw [if_neg h32, if_neg (by omega : ¬ sys.wrMode8.rc < 0),
          if_neg hs]
        split_ifs <;> rfl

/-- Mode, speed and word-size writes are not read requests. -/
theorem write_reqs_not_reads (c : IoCall) :
    (is_mode_write c = true → is_read_req c = false) ∧
    (is_speed_write c = true → is_read_req c = false) ∧
    (is_bpw_write c = true → is_read_req c = false) := by
  cases c <;> simp [is_mode_write, is_speed_write, is_bpw_write, is_read_req]

/-- C6: applying a configuration issues the driver writes in the order
mode mask first (starting with the 32-bit mode-mask write), then
speed, then word size; and whenever any write step fails,
`write_device_config` fails (under the errno contract) and its trace
contains no read request, i.e. the read-back is never performed. -/
theorem claim_c6_write_order_then_verify (sys : Sys) (e : Nat) (cfg : SpmCfg) (jk : Junk) :
    (∃ tm ts tb, (ioctl_write_config sys e cfg).2.2 = tm ++ ts ++ tb ∧
       tm.head? = some (IoCall.wrMode32 (cfg_to_mode_mask cfg)) ∧
       tm.all is_mode_write = true ∧ ts.all is_speed_write = true ∧
       tb.all is_bpw_write = true) ∧
    ((ioctl_write_config sys e cfg).1 < 0 →
       ((write_device_config sys e cfg jk).2.2.2.all (fun c => ! is_read_req c) = true ∧
        (SysWf sys → (write_device_config sys e cfg jk).1 ≠ SpmEcode.ok))) := by
  refine ⟨ioctl_write_config_trace_shape sys e cfg, fun hw => ⟨?_, fun hwf => ?_⟩⟩
  · obtain ⟨tm, ts, tb, htr, _, hm, hs, hb⟩ := ioctl_write_config_trace_shape sys e cfg
    simp only [write_device_config]
    rw [if_pos hw, htr]
    simp only [List.all_append, Bool.and_eq_true, List.all_eq_true] at hm hs hb ⊢
    refine ⟨⟨fun x hx => ?_, fun x hx => ?_⟩, fun x hx => ?_⟩
    · simp [(write_reqs_not_reads x).1 (hm x hx)]
    · simp [(write_reqs_not_reads x).2.1 (hs x hx)]
    · simp [(write_reqs_not_reads x).2.2 (hb x hx)]
  · simp only [write_device_config]
    rw [if_pos hw]
    exact spm_map_errno_ne_ok _ ((ioctl_write_config_spec sys e cfg).2 hwf hw)

/-- Witness for C6: on the speed-failing driver the mode write
succeeds, the speed write fails, and `write_device_config` fails with
a trace containing no read request. -/
theorem claim_c6_write_order_then_verify_witness :
    (write_device_config speedFailSys 0 get_default_cfg junk0).2.2.2.all
      (fun c => ! is_read_req c) = true ∧
    (write_device_config speedFailSys 0 get_default_cfg junk0).1 ≠ SpmEcode.ok := by
  have h := (claim_c6_write_order_then_verify speedFailSys 0 get_default_cfg junk0).2
    (by decide)
  exact ⟨h.1, h.2 (by decide)⟩

/-- A concrete open session whose cached configuration carries
recognizable policy fields: an inter-transfer delay of 7 µs and the
chip-select-toggle policy enabled, on the always-succeeding driver. -/
def devPolicy : SpmDevice :=
  { fd := 1
    cfg := { mode := 0, speed_hz := 1000000, bits_per_word := 8, lsb_first := false
             cs_active_high := false, delay_usecs := 7, cs_change := true }
    sys := okSys }

/-- C1 exhibit: a fully successful `spm_dev_set_mode` (and likewise
`spm_dev_set_bpw`) on `devPolicy` returns `SPM_OK` but replaces the
cached `delay_usecs`/`cs_change` with the indeterminate contents of
the uninitialized `actual_cfg` local of `write_device_config`
(here `junk0.ac`, with delay 0 and toggle off), instead of keeping the
previous cached values 7/true: `fill_config` fills only five of the
seven fields of `actual_cfg` before it is copied wholesale over the
cache. -/
theorem claim_c1_policy_fields_clobbered :
    devPolicy.cfg.delay_usecs = 7 ∧ devPolicy.cfg.cs_change = true ∧
    junk0.ac.delay_usecs = 0 ∧ junk0.ac.cs_change = false ∧
    (spm_dev_set_mode devPolicy 1 0 junk0).1 = SpmEcode.ok ∧
    ((spm_dev_set_mode devPolicy 1 0 junk0).2.1).cfg.delay_usecs = 0 ∧
    ((spm_dev_set_mode devPolicy 1 0 junk0).2.1).cfg.cs_change = false ∧
    (spm_dev_set_bpw devPolicy 16 0 junk0).1 = SpmEcode.ok ∧
    ((spm_dev_set_bpw devPolicy 16 0 junk0).2.1).cfg.delay_usecs = 0 ∧
    ((spm_dev_set_bpw devPolicy 16 0 junk0).2.1).cfg.cs_change = false := by
  decide
